import Mathlib

/-!
Shallow embedding of the crypto-dashboard data layer (`src/main.py`):
the spot-price fetcher `fetch_price`, the historical-series
normalization performed by the `update_chart` handler / auto-load
block, and the display formatting of the data grid.

Machine floats are modelled as exact rationals (ℚ); Python's
`format(x, ',.2f')` is modelled as round-half-even at the given number
of decimal digits followed by thousands grouping, which agrees with
CPython on every value used in the claims.
-/

namespace CryptoDash

/-- Decimal digit character, 0 ≤ d ≤ 9. -/
def digitChar (d : ℕ) : Char :=
  Char.ofNat (48 + d)

/-- Decimal digits of `n`, least significant first (fuel-driven). -/
def natDigitsRevAux : ℕ → ℕ → List Char
  | 0, _ => []
  | fuel + 1, n =>
    if n < 10 then [digitChar n]
    else digitChar (n % 10) :: natDigitsRevAux fuel (n / 10)

/-- Decimal digits of `n`, least significant first. -/
def natDigitsRev (n : ℕ) : List Char :=
  natDigitsRevAux (n + 1) n

/-- Decimal rendering of a natural number. -/
def natToStr (n : ℕ) : String :=
  ⟨(natDigitsRev n).reverse⟩

/-- Insert a `,` after every third character of a reversed digit list
(thousands grouping, as `format(x, ',')` does in Python). -/
def group3 : List Char → List Char
  | a :: b :: c :: d :: rest => a :: b :: c :: ',' :: group3 (d :: rest)
  | l => l

/-- Thousands-grouped decimal rendering of a natural number,
e.g. `1234567 ↦ "1,234,567"`. -/
def groupThousands (n : ℕ) : String :=
  ⟨(group3 (natDigitsRev n)).reverse⟩

/-- Round the fraction `n / d` (with `d > 0`) to the nearest integer,
ties to even — the rounding CPython's fixed-point `format` applies at
the last kept digit. Stated on numerator and denominator so it
evaluates by pure `Int`/`Nat` kernel arithmetic. -/
def roundHalfEvenND (n : ℤ) (d : ℕ) : ℤ :=
  let f := Int.fdiv n (d : ℤ)
  let r := n - f * (d : ℤ)
  if 2 * r < (d : ℤ) then f
  else if (d : ℤ) < 2 * r then f + 1
  else if f % 2 = 0 then f else f + 1

/-- Render `m % 100` as exactly two digits (the fractional part of a
`.2f` rendering). -/
def twoDigits (m : ℕ) : String :=
  ⟨[digitChar (m / 10), digitChar (m % 10)]⟩

/-- Python `f"{q:,.2f}"` on the exact value `q`: thousands-grouped
integer part, exactly two fractional digits, round half to even
(`q * 100` is the fraction `q.num * 100 / q.den`). -/
def formatComma2 (q : ℚ) : String :=
  let cents := roundHalfEvenND (q.num * 100) q.den
  let sign := if q.num < 0 then "-" else ""
  let a := cents.natAbs
  sign ++ groupThousands (a / 100) ++ "." ++ twoDigits (a % 100)

/-- Python `f"{q:,.0f}"` on the exact value `q`: thousands-grouped
integer, no fractional digits, round half to even. -/
def formatComma0 (q : ℚ) : String :=
  let units := roundHalfEvenND q.num q.den
  let sign := if q.num < 0 then "-" else ""
  sign ++ groupThousands units.natAbs

/-- A JSON field value as far as `fetch_price` inspects it: a number,
JSON `null` (Python `None`), or any other value (string/bool/object…)
whose `:,.2f` formatting raises a `TypeError`/`ValueError`. -/
inductive JVal
  | num (q : ℚ)
  | null
  | other
  deriving DecidableEq, Repr

/-- The body of an HTTP response as far as `response.json()` and
`data.get` see it: undecodable JSON (`response.json()` raises), JSON
that is not an object (`data.get` raises `AttributeError`), or an
object with optional `Price` and `Change24h` fields (`none` = field
absent). -/
inductive Body
  | malformed
  | nonObject
  | obj (price : Option JVal) (change : Option JVal)
  deriving DecidableEq, Repr

/-- The behavior of the quotation API for one request: the request
times out (`httpx.TimeoutException`), fails in transport
(`httpx.ConnectError` etc., any non-timeout exception from
`httpx.get`), or yields a response with a status code and a body. -/
inductive Upstream
  | timeout
  | connError
  | httpResponse (status : ℕ) (body : Body)
  deriving DecidableEq, Repr

/-- One entry of the `dia_symbols` dict: `(DIA_name,
blockchain_address, optional_blockchain)` — a 2- or 3-tuple in the
source, the third component optional. -/
structure DiaInfo where
  name : String
  address : String
  blockchainOverride : Option String
  deriving DecidableEq, Repr

/-- The all-zero placeholder address used by every `dia_symbols`
entry. -/
def zeroAddress : String :=
  "0x0000000000000000000000000000000000000000"

/-- The `dia_symbols` dict of `fetch_price` (src/main.py:105-111), as
an association list. -/
def diaSymbols : List (String × DiaInfo) :=
  [ ("BTC", ⟨"Bitcoin", zeroAddress, none⟩),
    ("ETH", ⟨"Ethereum", zeroAddress, none⟩),
    ("XMR", ⟨"Monero", zeroAddress, none⟩),
    ("SOL", ⟨"Solana", zeroAddress, none⟩),
    ("XRP", ⟨"XRP", zeroAddress, some "XRPL"⟩) ]

/-- Dict lookup `dia_symbols.get(crypto)` (the source's
`crypto in dia_symbols` test followed by `dia_symbols[crypto]`). -/
def diaLookup (crypto : String) : Option DiaInfo :=
  (diaSymbols.find? fun p => p.1 == crypto).map (·.2)

/-- Python `symbol.split('/')[0]`: the (possibly improper) longest
slash-free leading segment of `symbol`. -/
def firstSegment (symbol : String) : String :=
  ⟨symbol.data.takeWhile fun c => c ≠ '/'⟩

/-- An outbound HTTP request as `httpx.get(url, timeout=10)` issues
it. -/
structure HttpRequest where
  url : String
  timeoutSecs : ℕ
  deriving DecidableEq, Repr

/-- The blockchain path segment `fetch_price` resolves:
`dia_info[2] if len(dia_info) > 2 else dia_name`
(src/main.py:124). -/
def resolveBlockchain (info : DiaInfo) : String :=
  info.blockchainOverride.getD info.name

/-- The URL `fetch_price` builds for a resolved symbol
(src/main.py:131). -/
def diaUrl (info : DiaInfo) : String :=
  "https://api.diadata.org/v1/assetQuotation/" ++ resolveBlockchain info
    ++ "/" ++ info.address

/-- The `change_percent` extraction
`data.get('Change24h', 0)` followed by the `None → 0` patch
(src/main.py:150-152): an absent or `null` field becomes the number
`0`; any present non-null value is handed back as is. -/
def normChange (change : Option JVal) : JVal :=
  match change with
  | none => .num 0
  | some .null => .num 0
  | some v => v

/-- Body of `fetch_price` after the asset code has been extracted
(src/main.py:117-162): symbol-map check, the single GET, status
check, JSON parse, `Price`/`Change24h` extraction and formatting, with
`except httpx.TimeoutException` / `except Exception` surrounding it
all. The second component of the result is the raw value returned as
`change_percent` (an unhandled failure never occurs: every path
returns a pair). -/
def fetchPriceCore (crypto : String) (u : Upstream) : String × JVal :=
  match diaLookup crypto with
  | none => ("Symbol not supported", .num 0)
  | some _ =>
    match u with
    | .timeout => ("Request timeout", .num 0)
    | .connError => ("Error", .num 0)
    | .httpResponse status body =>
      if status ≠ 200 then ("API Error", .num 0)
      else
        match body with
        | .malformed => ("Error", .num 0)
        | .nonObject => ("Error", .num 0)
        | .obj price change =>
          match price with
          | none => ("Price not available", .num 0)
          | some .null => ("Price not available", .num 0)
          | some .other => ("Error", .num 0)
          | some (.num p) => ("$" ++ formatComma2 p, normChange change)

/-- The function `fetch_price(symbol)` (src/main.py:79-162), with the
quotation API's behavior passed in as `u`. -/
def fetchPrice (symbol : String) (u : Upstream) : String × JVal :=
  fetchPriceCore (firstSegment symbol) u

/-- The outbound requests `fetch_price` would issue for a given asset
code: none when the symbol-map lookup fails (early return before any
network call), exactly the one GET with a 10-second timeout
otherwise. -/
def fetchPriceRequestsCore (crypto : String) : List HttpRequest :=
  match diaLookup crypto with
  | none => []
  | some info => [⟨diaUrl info, 10⟩]

/-- The outbound requests `fetch_price symbol` issues. -/
def fetchPriceRequests (symbol : String) : List HttpRequest :=
  fetchPriceRequestsCore (firstSegment symbol)

/-- A value held in one cell of a pandas dataframe, as far as the
dashboard inspects it: a timestamp (calendar date, seconds past
midnight, optional UTC-offset timezone in minutes — yfinance's `Date`
index values), a number, or a string. -/
inductive Cell
  | dtime (y m d secs : ℕ) (tz : Option ℤ)
  | num (q : ℚ)
  | str (s : String)
  deriving DecidableEq, Repr

/-- A dataframe as a list of named columns, each a list of cells in
row order. -/
abbrev DataFrame := List (String × List Cell)

/-- Column lookup `df[name]`. -/
def colLookup (df : DataFrame) (name : String) : Option (List Cell) :=
  (df.find? fun p => p.1 == name).map (·.2)

/-- Column selection `df[[n₁, …, nₖ]]`: the named columns in the given
order, every other column discarded; `none` when a name is missing
(pandas raises a `KeyError`, caught by the handler's
`except Exception`). -/
def selectCols : List String → DataFrame → Option DataFrame
  | [], _ => some []
  | n :: ns, df =>
    match colLookup df n, selectCols ns df with
    | some d, some rest => some ((n, d) :: rest)
    | _, _ => none

/-- Python `pd.to_datetime` on one cell. On the values this pipeline
feeds it — the already-datetime `Date` values of a yfinance history —
`pd.to_datetime` is the identity: it does not drop the time-of-day or
timezone component. Parsing of non-datetime inputs is not exercised by
this code and not modelled. -/
def toDatetime (c : Cell) : Cell := c

/-- What the market-data provider returns for one
`ticker.history(period=…)` call: an exception in transport/parsing, or
a dataframe given as its `Date` index plus its named data columns. -/
inductive ProviderHistory
  | raises (msg : String)
  | history (index : List Cell) (cols : DataFrame)

/-- Outcome of the chart-update block: a displayed error message and
no dataframe (`hist_df = None`), or the normalized series bound to
`hist_df`. -/
inductive HistResult
  | failure (msg : String)
  | series (df : DataFrame)
  deriving DecidableEq, Repr

/-- The canonical lowercase column names assigned by
`hist_df.columns = ['time', 'open', 'high', 'low', 'close', 'volume']`. -/
def canonicalNames : List String :=
  ["time", "open", "high", "low", "close", "volume"]

/-- The history-normalization logic of the `update_chart` handler
(src/main.py:282-309), identical in the auto-load block
(src/main.py:316-334): empty check, `reset_index` (which turns the
`Date` index into a leading `Date` column), selection of the six OHLCV
columns, positional rename to the canonical lowercase names, and
`pd.to_datetime` over the `time` column. A provider exception, or a
`KeyError` from the column selection, lands in the handler's
`except Exception` branch (`st.error(f"Error fetching data: …")`,
`hist_df = None`). -/
def fetchHistory (symbol : String) (p : ProviderHistory) : HistResult :=
  match p with
  | .raises msg => .failure ("Error fetching data: " ++ msg)
  | .history index cols =>
    if index.isEmpty then .failure ("No data found for " ++ symbol)
    else
      let df : DataFrame := ("Date", index) :: cols
      match selectCols ["Date", "Open", "High", "Low", "Close", "Volume"] df with
      | none => .failure ("Error fetching data: KeyError")
      | some sel =>
        let renamed := List.zip canonicalNames (sel.map (·.2))
        .series (renamed.map fun p =>
          if p.1 = "time" then (p.1, p.2.map toDatetime) else p)

/-- A historical-data request as `yf.Ticker(symbol).history(period=…)`
issues it. -/
structure HistRequest where
  symbol : String
  period : String
  deriving DecidableEq, Repr

/-- The request the `update_chart` handler issues from the submitted
form state (src/main.py:282-291): `symbol` from the selectbox, and the
hard-coded `period='1y'` — the form's `interval` selectbox and
`period` number input are read but never used. -/
def updateChartRequest (symbol : String) (_interval : String) (_period : ℕ) : HistRequest :=
  { symbol := symbol, period := "1y" }

/-- The request the auto-load block issues on first page load
(src/main.py:316-320). -/
def autoLoadRequest : HistRequest :=
  { symbol := "BTC-USD", period := "1y" }

/-- Render a timestamp cell as `strftime('%Y-%m-%d')` does: the
calendar date, zero-padded, ignoring time of day and timezone. Left
unchanged on non-timestamp cells (which the pipeline never feeds
it). -/
def strftimeYMD (c : Cell) : Cell :=
  match c with
  | .dtime y m d _ _ =>
    .str (natToStr (y / 1000 % 10) ++ natToStr (y / 100 % 10) ++ natToStr (y / 10 % 10)
      ++ natToStr (y % 10) ++ "-" ++ natToStr (m / 10) ++ natToStr (m % 10)
      ++ "-" ++ natToStr (d / 10) ++ natToStr (d % 10))
  | c => c

/-- Python `f"${x:,.2f}"` applied to a numeric cell (the `.apply`
lambda over the four price columns). -/
def fmtDollarCell (c : Cell) : Cell :=
  match c with
  | .num q => .str ("$" ++ formatComma2 q)
  | c => c

/-- Python `f"{x:,.0f}"` applied to a numeric cell (the `.apply`
lambda over the volume column). -/
def fmtVolumeCell (c : Cell) : Cell :=
  match c with
  | .num q => .str (formatComma0 q)
  | c => c

/-- The per-column cell transform of the data-grid block
(src/main.py:419-434): `time` through `strftime('%Y-%m-%d')`, the four
price columns through `f"${x:,.2f}"`, `volume` through `f"{x:,.0f}"`,
every other column untouched. -/
def displayTransform (name : String) : Cell → Cell :=
  if name = "time" then strftimeYMD
  else if name ∈ ["open", "high", "low", "close"] then fmtDollarCell
  else if name = "volume" then fmtVolumeCell
  else id

/-- The formatted table the data-grid block builds from `hist_df`: an
elementwise, order-preserving map over each column. -/
def formatDisplay (df : DataFrame) : DataFrame :=
  df.map fun p => (p.1, p.2.map (displayTransform p.1))

/-- The whole data-grid block (src/main.py:411-441): starting from
`hist_df`, it builds `display_df = hist_df.copy()` and formats the
copy in place. The result pairs `hist_df` as it stands after the block
(unmodified, thanks to the `.copy()`) with the rendered
`display_df`. -/
def displayPipeline (histDf : DataFrame) : DataFrame × DataFrame :=
  (histDf, formatDisplay histDf)

/-- The five fixed human-readable error tokens `fetch_price` can
return in place of a formatted price. -/
def sentinelStrings : List String :=
  ["Symbol not supported", "API Error", "Price not available",
   "Request timeout", "Error"]

/-- Upstream behaviors under which the body of the `try` block of
`fetch_price` raises a non-timeout exception: transport failure from
`httpx.get`, undecodable JSON, JSON that is not an object, or a
`Price` value whose `:,.2f` formatting raises — all landing in the
`except Exception` branch (src/main.py:160-162). -/
def otherException : Upstream → Bool
  | .timeout => false
  | .connError => true
  | .httpResponse status body =>
    status == 200 &&
      match body with
      | .malformed => true
      | .nonObject => true
      | .obj (some .other) _ => true
      | .obj _ _ => false

/-- Whether a cell is a bare calendar date: a timestamp with no
time-of-day and no timezone attached. -/
def isBareDate : Cell → Bool
  | .dtime _ _ _ secs tz => secs == 0 && tz == none
  | _ => false

/-- The `time` column of a produced Series, if any. -/
def seriesTimeColumn : HistResult → Option (List Cell)
  | .series df => colLookup df "time"
  | .failure _ => none

example : formatComma2 (mkRat 2469 2) = "1,234.50" := by decide
example : formatComma0 (mkRat 1234567 1) = "1,234,567" := by decide
example : firstSegment "BTC/USDT" = "BTC" := by decide
example : fetchPrice "FOO/USDT" .timeout = ("Symbol not supported", .num 0) := by decide
example :
    fetchPrice "BTC/USDT" (.httpResponse 200 (.obj (some (.num (mkRat 2469 2))) (some (.num (mkRat (-21) 10)))))
      = ("$1,234.50", .num (mkRat (-21) 10)) := by decide
example :
    fetchHistory "ZZZ-USD" (.history [] [("Open", []), ("Dividends", [])])
      = .failure "No data found for ZZZ-USD" := by rfl
example :
    fetchHistory "BTC-USD"
      (.history [.dtime 2024 1 2 0 (some 0)]
        [("Open", [.num (mkRat 865010 20)]), ("High", [.num (mkRat 2 1)]),
         ("Low", [.num (mkRat 1 1)]), ("Close", [.num (mkRat 3 1)]),
         ("Volume", [.num (mkRat 1234567 1)]), ("Dividends", [.num (mkRat 0 1)])])
      = .series
          [("time", [.dtime 2024 1 2 0 (some 0)]),
           ("open", [.num (mkRat 865010 20)]), ("high", [.num (mkRat 2 1)]),
           ("low", [.num (mkRat 1 1)]), ("close", [.num (mkRat 3 1)]),
           ("volume", [.num (mkRat 1234567 1)])] := by decide
example :
    formatDisplay
      [("time", [.dtime 2024 1 2 0 none]), ("open", [.num (mkRat 865010 20)]),
       ("volume", [.num (mkRat 1234567 1)])]
      = [("time", [.str "2024-01-02"]), ("open", [.str "$43,250.50"]),
         ("volume", [.str "1,234,567"])] := by decide

/-- Helper: `"BTC/" ++ anything` has asset code `BTC`. -/
lemma firstSegment_btcSlash (sfx : String) : firstSegment ("BTC/" ++ sfx) = "BTC" := by
  have h : ("BTC/" ++ sfx).data = 'B' :: 'T' :: 'C' :: '/' :: sfx.data := by
    rw [String.data_append]; rfl
  unfold firstSegment
  rw [h]
  rfl

/-- Helper: the full normalization result of the chart-update block on
a non-empty history that carries the six expected columns. -/
lemma fetchHistory_series_eq (symbol : String) (index : List Cell) (cols : DataFrame)
    (o h l c v : List Cell) (hne : index ≠ [])
    (ho : colLookup cols "Open" = some o) (hh : colLookup cols "High" = some h)
    (hl : colLookup cols "Low" = some l) (hc : colLookup cols "Close" = some c)
    (hv : colLookup cols "Volume" = some v) :
    fetchHistory symbol (.history index cols)
      = .series [("time", index.map toDatetime), ("open", o), ("high", h),
                 ("low", l), ("close", c), ("volume", v)] := by
  simp only [colLookup] at ho hh hl hc hv
  cases index with
  | nil => exact absurd rfl hne
  | cons a as =>
    simp [fetchHistory, selectCols, colLookup, List.find?, ho, hh, hl, hc, hv,
      canonicalNames]

/-- C1: for every symbol for which a request is issued and every
upstream behavior, `fetch_price` resolves to a value — a timeout to
`("Request timeout", 0)`, any other in-`try` exception to
`("Error", 0)` — and in general every result is either a sentinel
string paired with change `0` or a formatted price (no exception
escapes: the embedding is a total function covering every upstream
behavior). -/
theorem fetchPrice_failure_sentinels (symbol : String) (u : Upstream) :
    (fetchPriceRequests symbol ≠ [] →
      (u = .timeout → fetchPrice symbol u = ("Request timeout", JVal.num 0)) ∧
      (otherException u = true → fetchPrice symbol u = ("Error", JVal.num 0))) ∧
    ((fetchPrice symbol u).1 ∈ sentinelStrings ∧ (fetchPrice symbol u).2 = JVal.num 0 ∨
      ∃ p : ℚ, ∃ change : Option JVal,
        fetchPrice symbol u = ("$" ++ formatComma2 p, normChange change)) := by
  cases hd : diaLookup (firstSegment symbol) with
  | none =>
    constructor
    · intro hreq
      exact absurd (by simp [fetchPriceRequests, fetchPriceRequestsCore, hd]) hreq
    · left
      simp [fetchPrice, fetchPriceCore, hd, sentinelStrings]
  | some info =>
    constructor
    · intro _
      constructor
      · rintro rfl
        simp [fetchPrice, fetchPriceCore, hd]
      · intro hx
        cases u with
        | timeout => simp [otherException] at hx
        | connError => simp [fetchPrice, fetchPriceCore, hd]
        | httpResponse status body =>
          cases body with
          | malformed =>
            simp only [otherException, Bool.and_eq_true, beq_iff_eq] at hx
            obtain ⟨rfl, -⟩ := hx
            simp [fetchPrice, fetchPriceCore, hd]
          | nonObject =>
            simp only [otherException, Bool.and_eq_true, beq_iff_eq] at hx
            obtain ⟨rfl, -⟩ := hx
            simp [fetchPrice, fetchPriceCore, hd]
          | obj price change =>
            cases price with
            | none => simp [otherException] at hx
            | some pv =>
              cases pv with
              | num q => simp [otherException] at hx
              | null => simp [otherException] at hx
              | other =>
                simp only [otherException, Bool.and_eq_true, beq_iff_eq] at hx
                obtain ⟨rfl, -⟩ := hx
                simp [fetchPrice, fetchPriceCore, hd]
    · cases u with
      | timeout => left; simp [fetchPrice, fetchPriceCore, hd, sentinelStrings]
      | connError => left; simp [fetchPrice, fetchPriceCore, hd, sentinelStrings]
      | httpResponse status body =>
        by_cases hs : status = 200
        · subst hs
          cases body with
          | malformed => left; simp [fetchPrice, fetchPriceCore, hd, sentinelStrings]
          | nonObject => left; simp [fetchPrice, fetchPriceCore, hd, sentinelStrings]
          | obj price change =>
            cases price with
            | none => left; simp [fetchPrice, fetchPriceCore, hd, sentinelStrings]
            | some pv =>
              cases pv with
              | null => left; simp [fetchPrice, fetchPriceCore, hd, sentinelStrings]
              | other => left; simp [fetchPrice, fetchPriceCore, hd, sentinelStrings]
              | num q =>
                right
                exact ⟨q, change, by simp [fetchPrice, fetchPriceCore, hd]⟩
        · left; simp [fetchPrice, fetchPriceCore, hd, hs, sentinelStrings]

/-- Witness for C1 at concrete inputs: a timed-out and a
transport-failed `BTC/USDT` request degrade to their sentinels. -/
theorem fetchPrice_failure_sentinels_witness :
    fetchPrice "BTC/USDT" .timeout = ("Request timeout", JVal.num 0) ∧
    fetchPrice "ETH/USDT" .connError = ("Error", JVal.num 0) :=
  ⟨((fetchPrice_failure_sentinels "BTC/USDT" .timeout).1 (by decide)).1 rfl,
   ((fetchPrice_failure_sentinels "ETH/USDT" .connError).1 (by decide)).2 (by decide)⟩

/-- C2: an asset code outside {BTC, ETH, XMR, SOL, XRP} yields
`("Symbol not supported", 0)` under every upstream behavior, with no
network call issued. -/
theorem fetchPrice_unsupported_no_request (symbol : String) (u : Upstream)
    (h : firstSegment symbol ∉ ["BTC", "ETH", "XMR", "SOL", "XRP"]) :
    fetchPrice symbol u = ("Symbol not supported", JVal.num 0) ∧
    fetchPriceRequests symbol = [] := by
  simp only [List.mem_cons, List.not_mem_nil, or_false, not_or] at h
  obtain ⟨h1, h2, h3, h4, h5⟩ := h
  have e1 : (("BTC" : String) == firstSegment symbol) = false :=
    beq_eq_false_iff_ne.mpr (Ne.symm h1)
  have e2 : (("ETH" : String) == firstSegment symbol) = false :=
    beq_eq_false_iff_ne.mpr (Ne.symm h2)
  have e3 : (("XMR" : String) == firstSegment symbol) = false :=
    beq_eq_false_iff_ne.mpr (Ne.symm h3)
  have e4 : (("SOL" : String) == firstSegment symbol) = false :=
    beq_eq_false_iff_ne.mpr (Ne.symm h4)
  have e5 : (("XRP" : String) == firstSegment symbol) = false :=
    beq_eq_false_iff_ne.mpr (Ne.symm h5)
  have hl : diaLookup (firstSegment symbol) = none := by
    simp [diaLookup, diaSymbols, List.find?, e1, e2, e3, e4, e5]
  exact ⟨by simp [fetchPrice, fetchPriceCore, hl],
    by simp [fetchPriceRequests, fetchPriceRequestsCore, hl]⟩

/-- Witness for C2: `DOGE/USDT` is rejected before any request. -/
theorem fetchPrice_unsupported_no_request_witness :
    fetchPrice "DOGE/USDT" .timeout = ("Symbol not supported", JVal.num 0) ∧
    fetchPriceRequests "DOGE/USDT" = [] :=
  fetchPrice_unsupported_no_request "DOGE/USDT" .timeout (by decide)

/-- C3: a 200 response with a numeric `Price` yields the
dollar-formatted, thousands-grouped, 2-decimal price, paired with the
body's `Change24h` (absent or `null` treated as `0`). -/
theorem fetchPrice_success_format (symbol : String) (info : DiaInfo)
    (hd : diaLookup (firstSegment symbol) = some info) (p : ℚ) (change : Option JVal) :
    fetchPrice symbol (.httpResponse 200 (.obj (some (.num p)) change))
      = ("$" ++ formatComma2 p, normChange change) := by
  simp [fetchPrice, fetchPriceCore, hd]

/-- Witness for C3: on body `{"Price": 1234.5, "Change24h": -2.1}`,
`fetch_price("BTC/USDT")` returns `("$1,234.50", -2.1)`. -/
theorem fetchPrice_success_format_witness :
    fetchPrice "BTC/USDT"
        (.httpResponse 200 (.obj (some (.num (mkRat 2469 2))) (some (.num (mkRat (-21) 10)))))
      = ("$1,234.50", JVal.num (mkRat (-21) 10)) := by
  have h := fetchPrice_success_format "BTC/USDT" ⟨"Bitcoin", zeroAddress, none⟩ (by decide)
    (mkRat 2469 2) (some (.num (mkRat (-21) 10)))
  rw [h]
  decide

/-- C4: on a non-empty history that carries the six expected provider
columns (plus any extras such as `Dividends` or `Stock Splits`), the
normalization yields a Series with exactly the six canonical lowercase
fields in the fixed order, every other column discarded and row order
preserved. -/
theorem fetchHistory_canonical_columns (symbol : String) (index : List Cell)
    (cols : DataFrame) (o h l c v : List Cell) (hne : index ≠ [])
    (ho : colLookup cols "Open" = some o) (hh : colLookup cols "High" = some h)
    (hl : colLookup cols "Low" = some l) (hc : colLookup cols "Close" = some c)
    (hv : colLookup cols "Volume" = some v) :
    fetchHistory symbol (.history index cols)
      = .series [("time", index.map toDatetime), ("open", o), ("high", h),
                 ("low", l), ("close", c), ("volume", v)] :=
  fetchHistory_series_eq symbol index cols o h l c v hne ho hh hl hc hv

/-- Witness for C4: a one-row history with `Dividends` and
`Stock Splits` extras normalizes to exactly the six canonical
columns. -/
theorem fetchHistory_canonical_columns_witness :
    fetchHistory "BTC-USD"
        (.history [Cell.dtime 2024 1 2 0 (some 0)]
          [("Open", [Cell.num (mkRat 1 1)]), ("High", [Cell.num (mkRat 2 1)]),
           ("Low", [Cell.num (mkRat 3 1)]), ("Close", [Cell.num (mkRat 4 1)]),
           ("Volume", [Cell.num (mkRat 5 1)]), ("Dividends", [Cell.num (mkRat 0 1)]),
           ("Stock Splits", [Cell.num (mkRat 0 1)])])
      = .series [("time", [Cell.dtime 2024 1 2 0 (some 0)]),
                 ("open", [Cell.num (mkRat 1 1)]), ("high", [Cell.num (mkRat 2 1)]),
                 ("low", [Cell.num (mkRat 3 1)]), ("close", [Cell.num (mkRat 4 1)]),
                 ("volume", [Cell.num (mkRat 5 1)])] :=
  fetchHistory_canonical_columns "BTC-USD" [Cell.dtime 2024 1 2 0 (some 0)]
    [("Open", [Cell.num (mkRat 1 1)]), ("High", [Cell.num (mkRat 2 1)]),
     ("Low", [Cell.num (mkRat 3 1)]), ("Close", [Cell.num (mkRat 4 1)]),
     ("Volume", [Cell.num (mkRat 5 1)]), ("Dividends", [Cell.num (mkRat 0 1)]),
     ("Stock Splits", [Cell.num (mkRat 0 1)])]
    [Cell.num (mkRat 1 1)] [Cell.num (mkRat 2 1)] [Cell.num (mkRat 3 1)]
    [Cell.num (mkRat 4 1)] [Cell.num (mkRat 5 1)]
    (by decide) (by decide) (by decide) (by decide) (by decide) (by decide)

/-- C5 counterexample: a provider timestamp carrying a time of day
(01:00:00) and a timezone survives the pipeline unchanged — the
produced Series' `time` value is not a bare calendar date, refuting
the claim that any timezone or time-of-day component is dropped. -/
theorem fetchHistory_time_keeps_intraday :
    seriesTimeColumn
        (fetchHistory "BTC-USD"
          (.history [Cell.dtime 2024 1 2 3600 (some 0)]
            [("Open", [Cell.num (mkRat 1 1)]), ("High", [Cell.num (mkRat 2 1)]),
             ("Low", [Cell.num (mkRat 3 1)]), ("Close", [Cell.num (mkRat 4 1)]),
             ("Volume", [Cell.num (mkRat 5 1)])]))
      = some [Cell.dtime 2024 1 2 3600 (some 0)] ∧
    isBareDate (Cell.dtime 2024 1 2 3600 (some 0)) = false := by decide

/-- C5 amended: the `time` field of every produced record is the
provider's `Date` value passed through `pd.to_datetime`, which leaves
an already-datetime value — including its timezone and time-of-day
components — unchanged; the pipeline guarantees a uniform datetime
type, not a bare calendar date. -/
theorem fetchHistory_time_passthrough (symbol : String) (index : List Cell)
    (cols : DataFrame) (o h l c v : List Cell) (hne : index ≠ [])
    (ho : colLookup cols "Open" = some o) (hh : colLookup cols "High" = some h)
    (hl : colLookup cols "Low" = some l) (hc : colLookup cols "Close" = some c)
    (hv : colLookup cols "Volume" = some v) :
    seriesTimeColumn (fetchHistory symbol (.history index cols)) = some index ∧
    ∀ cell : Cell, toDatetime cell = cell := by
  refine ⟨?_, fun _ => rfl⟩
  rw [fetchHistory_series_eq symbol index cols o h l c v hne ho hh hl hc hv]
  simp [seriesTimeColumn, colLookup, List.find?, show toDatetime = id from rfl]

/-- Witness for C5 (amended) at a concrete one-row history with an
intraday, timezone-carrying timestamp. -/
theorem fetchHistory_time_passthrough_witness :
    seriesTimeColumn
        (fetchHistory "ETH-USD"
          (.history [Cell.dtime 2023 7 15 43200 (some (-300))]
            [("Open", [Cell.num (mkRat 11 10)]), ("High", [Cell.num (mkRat 12 10)]),
             ("Low", [Cell.num (mkRat 13 10)]), ("Close", [Cell.num (mkRat 14 10)]),
             ("Volume", [Cell.num (mkRat 15 10)])]))
      = some [Cell.dtime 2023 7 15 43200 (some (-300))] :=
  (fetchHistory_time_passthrough "ETH-USD" [Cell.dtime 2023 7 15 43200 (some (-300))]
    [("Open", [Cell.num (mkRat 11 10)]), ("High", [Cell.num (mkRat 12 10)]),
     ("Low", [Cell.num (mkRat 13 10)]), ("Close", [Cell.num (mkRat 14 10)]),
     ("Volume", [Cell.num (mkRat 15 10)])]
    [Cell.num (mkRat 11 10)] [Cell.num (mkRat 12 10)] [Cell.num (mkRat 13 10)]
    [Cell.num (mkRat 14 10)] [Cell.num (mkRat 15 10)]
    (by decide) (by decide) (by decide) (by decide) (by decide) (by decide)).1

/-- C6 counterexample: two different submitted form periods produce
the identical historical-data request, whose period is the hard-coded
`"1y"` — the user-submitted period does not determine the span
requested. -/
theorem updateChart_period_ignored :
    updateChartRequest "BTC-USD" "1d" 100 = updateChartRequest "BTC-USD" "1d" 500 ∧
    (updateChartRequest "BTC-USD" "1d" 100).period = "1y" := by decide

/-- C6 amended: every historical-data request is issued for the
submitted symbol over the fixed period `"1y"`; the form's period (and
interval) inputs never reach the provider call, and the auto-load
request is `BTC-USD` over `"1y"` as well. -/
theorem updateChart_symbol_only_fixed_period :
    (∀ (symbol interval : String) (period : ℕ),
        updateChartRequest symbol interval period = ⟨symbol, "1y"⟩) ∧
    autoLoadRequest = ⟨"BTC-USD", "1y"⟩ :=
  ⟨fun _ _ _ => rfl, rfl⟩

/-- C7: the data-grid block leaves `hist_df` untouched (it formats a
copy), formats as an order-preserving elementwise map over the
columns, renders each price cell as `$` + thousands-grouped 2-decimal
string and each volume cell as a thousands-grouped integer string, and
on the claim's concrete record yields
`{time: "2024-01-02", open: "$43,250.50", volume: "1,234,567"}`. -/
theorem display_format_spec :
    (∀ histDf : DataFrame, (displayPipeline histDf).1 = histDf) ∧
    (∀ histDf : DataFrame,
        (displayPipeline histDf).2
          = histDf.map fun p => (p.1, p.2.map (displayTransform p.1))) ∧
    (∀ q : ℚ,
        displayTransform "open" (.num q) = .str ("$" ++ formatComma2 q) ∧
        displayTransform "high" (.num q) = .str ("$" ++ formatComma2 q) ∧
        displayTransform "low" (.num q) = .str ("$" ++ formatComma2 q) ∧
        displayTransform "close" (.num q) = .str ("$" ++ formatComma2 q) ∧
        displayTransform "volume" (.num q) = .str (formatComma0 q)) ∧
    formatDisplay
        [("time", [.dtime 2024 1 2 0 none]), ("open", [.num (mkRat 865010 20)]),
         ("volume", [.num (mkRat 1234567 1)])]
      = [("time", [.str "2024-01-02"]), ("open", [.str "$43,250.50"]),
         ("volume", [.str "1,234,567"])] := by
  refine ⟨fun _ => rfl, fun _ => rfl, fun q => ?_, by decide⟩
  refine ⟨?_, ?_, ?_, ?_, ?_⟩ <;> simp [displayTransform, fmtDollarCell, fmtVolumeCell]

/-- C8: a supported asset code issues exactly one GET, to the DIA
quotation endpoint `/v1/assetQuotation/{blockchain}/{address}` with a
10-second timeout, where the blockchain segment is the mapped override
when present and the mapped asset name otherwise, and the address is
the mapped placeholder. -/
theorem fetchPrice_request_shape (symbol : String) (info : DiaInfo)
    (hd : diaLookup (firstSegment symbol) = some info) :
    fetchPriceRequests symbol
      = [⟨"https://api.diadata.org/v1/assetQuotation/"
            ++ info.blockchainOverride.getD info.name ++ "/" ++ info.address, 10⟩] := by
  simp [fetchPriceRequests, fetchPriceRequestsCore, hd, diaUrl, resolveBlockchain]

/-- Witness for C8: XRP resolves to the `XRPL` blockchain override in
its single 10-second request. -/
theorem fetchPrice_request_shape_witness :
    fetchPriceRequests "XRP/USDT"
      = [⟨"https://api.diadata.org/v1/assetQuotation/XRPL/0x0000000000000000000000000000000000000000",
          10⟩] := by
  have h := fetchPrice_request_shape "XRP/USDT" ⟨"XRP", zeroAddress, some "XRPL"⟩ (by decide)
  rw [h]
  decide

/-- C9: an empty historical series yields the non-fatal failure
message `"No data found for {symbol}"` (containing the symbol) and no
Series. -/
theorem fetchHistory_empty_failure (symbol : String) (cols : DataFrame) :
    fetchHistory symbol (.history [] cols) = .failure ("No data found for " ++ symbol) ∧
    ∀ df : DataFrame, fetchHistory symbol (.history [] cols) ≠ .series df := by
  refine ⟨rfl, fun df h => ?_⟩
  simp [fetchHistory] at h

/-- C10: `fetch_price` reads only the segment of its argument before
the first `/` — any suffix after `BTC/` gives the same Quote as
`BTC/USDT` under the same upstream behavior, and a bare `BTC` with no
slash at all resolves exactly like `BTC/USDT`. -/
theorem fetchPrice_first_segment_only :
    (∀ s₁ s₂ : String, ∀ u : Upstream,
        firstSegment s₁ = firstSegment s₂ → fetchPrice s₁ u = fetchPrice s₂ u) ∧
    (∀ sfx : String, ∀ u : Upstream,
        fetchPrice ("BTC/" ++ sfx) u = fetchPrice "BTC/USDT" u) ∧
    (∀ u : Upstream, fetchPrice "BTC" u = fetchPrice "BTC/USDT" u) := by
  have key : ∀ s₁ s₂ : String, ∀ u : Upstream,
      firstSegment s₁ = firstSegment s₂ → fetchPrice s₁ u = fetchPrice s₂ u := by
    intro s₁ s₂ u h
    unfold fetchPrice
    rw [h]
  refine ⟨key, fun sfx u => key _ _ u ?_, fun u => key _ _ u (by decide)⟩
  rw [firstSegment_btcSlash]
  decide

/-- Witness for C10: a bare `BTC` behaves like `BTC/USDT` under a
concrete upstream behavior. -/
theorem fetchPrice_first_segment_only_witness :
    fetchPrice "BTC" Upstream.timeout = fetchPrice "BTC/USDT" Upstream.timeout :=
  fetchPrice_first_segment_only.1 "BTC" "BTC/USDT" Upstream.timeout (by decide)

end CryptoDash
